import Mathlib

/-!
Verification of the MarcaZap frontend specification.

The repository ships only `WARP.md` (architecture documentation) and the
landing-page route `src/routes/index.tsx`.  The public booking wizard that
the specification documents (components under `src/components/booking/`,
hooks under `src/hooks/`, the `/agendar/:slug` route) is described by
`WARP.md` but its code is not present, so the wizard controller below is
modelled from the spec.  The landing-page route is embedded directly from
`src/routes/index.tsx`.
-/

namespace MarcaZap

/-- Modelled from the spec: a Service offered by a professional (spec §3:
id, name, duration, price).  The implementing file
`src/types/service.types.ts` is not present in the repository. -/
structure Service where
  id : Nat
  name : String
  duration : Nat
  price : Nat
  deriving DecidableEq, Repr

/-- Modelled from the spec: a TimeSlot is a (date, start-time) pair held
bookable by the remote collaborator (spec §3).  The implementing file
`src/types/availability.types.ts` is not present in the repository. -/
structure TimeSlot where
  date : String
  start : String
  deriving DecidableEq, Repr

/-- Modelled from the spec: the data entered on the client-information
form: name, WhatsApp contact, optional notes (spec §4.1). -/
structure ClientInfo where
  name : String
  phone : String
  notes : Option String
  deriving DecidableEq, Repr

/-- Modelled from the spec: BookingDraft, the client-local transient
aggregate {selected Service, selected TimeSlot, client name, client
contact, optional notes} built incrementally across wizard steps
(spec §3). -/
structure BookingDraft where
  service : Option Service
  slot : Option TimeSlot
  clientName : Option String
  clientContact : Option String
  notes : Option String
  deriving DecidableEq, Repr

/-- The empty draft a fresh wizard starts from. -/
def emptyDraft : BookingDraft :=
  { service := none, slot := none, clientName := none,
    clientContact := none, notes := none }

/-- Modelled from the spec: the persisted Booking returned by the remote
collaborator after successful submission; carries a status from a closed
set owned by the backend (spec §3). -/
structure Booking where
  status : String
  deriving DecidableEq, Repr

/-- Modelled from the spec: the four wizard steps, finite and strictly
ordered (spec §4.1). -/
inductive WizardStep where
  | selectService
  | selectSlot
  | enterClientInfo
  | confirmation
  deriving DecidableEq, Repr

/-- Modelled from the spec: field-level validation errors produced by the
schema validation of the client-information form (spec §4.1, §7b). -/
inductive FieldError where
  | nameRequired
  | phoneInvalid
  deriving DecidableEq, Repr

/-- Modelled from the spec: ways the booking-creation call can fail
(spec §4.1 and §7: transport error, slot conflict, server-side
validation rejection). -/
inductive BookingFailure where
  | transportError
  | slotConflict
  | validationRejected
  deriving DecidableEq, Repr

/-- Modelled from the spec: the outcome of the `POST /bookings` call
(spec §6). -/
inductive BookingResult where
  | success (b : Booking)
  | failure (e : BookingFailure)
  deriving DecidableEq, Repr

/-- Modelled from the spec: the full state of the wizard controller: the
current step, the draft being assembled, surfaced field errors, the last
submission error surfaced non-destructively, and the Booking rendered at
confirmation (spec §4.1). -/
structure WizardState where
  step : WizardStep
  draft : BookingDraft
  fieldErrors : List FieldError
  submitError : Option BookingFailure
  booking : Option Booking
  deriving DecidableEq, Repr

/-- The initial wizard state: `SelectService` with an empty draft. -/
def initialState : WizardState :=
  { step := .selectService, draft := emptyDraft, fieldErrors := [],
    submitError := none, booking := none }

/-- Modelled from the spec: the per-step input fed to `onAdvance`
(spec §4.1). -/
inductive Input where
  | service (s : Service)
  | slot (t : TimeSlot)
  | client (c : ClientInfo)
  deriving DecidableEq, Repr

/-- A `POST /bookings` call carrying the complete draft (spec §6). -/
structure PostCall where
  body : BookingDraft
  deriving DecidableEq, Repr

/-- Modelled from the spec: the remote collaborator as seen by one pass of
the wizard: the professional's service list, the slots returned by the
availability query, and the response to the booking-creation call
(spec §6). -/
structure Env where
  services : List Service
  availableSlots : List TimeSlot
  bookingResult : BookingResult
  deriving Repr

/-- Modelled from the spec: syntactic validity of a WhatsApp-style phone
number (spec §4.1): a leading `+` followed by at least eight digits. -/
def validWhatsAppPhone (s : String) : Bool :=
  match s.data with
  | [] => false
  | c :: rest => c = '+' && decide (rest.length ≥ 8) && rest.all Char.isDigit

/-- Modelled from the spec: schema-based validation of the
client-information form, producing field-level errors (spec §4.1):
name must be non-empty and phone syntactically valid; notes optional. -/
def validateClientInfo (c : ClientInfo) : List FieldError :=
  (if c.name = "" then [FieldError.nameRequired] else []) ++
    (if validWhatsAppPhone c.phone then [] else [FieldError.phoneInvalid])

/-- Modelled from the spec: the `onAdvance` transition of the wizard
controller (spec §4.1).  Returns the next state together with the list of
`POST /bookings` calls the transition issued.
* `SelectService.onAdvance(service)` requires a service from the
  professional's list, stores it, moves to `SelectSlot`.
* `SelectSlot.onAdvance(slot)` requires a slot returned by the
  availability query, stores it, moves to `EnterClientInfo`.
* `EnterClientInfo.onAdvance(clientInfo)` validates the form; on failure
  it rejects the transition with field-level errors and issues no call;
  on success it issues the single atomic create-booking call with the
  full draft and moves to `Confirmation` only if the call succeeds.  A
  failed call retains the draft; a `SlotConflict` failure returns the
  user to `SelectSlot` (spec §7c, §8), other failures keep the user in
  `EnterClientInfo` (spec §4.1).
* `Confirmation` is terminal: no forward transition. -/
def onAdvance (env : Env) (st : WizardState) (inp : Input) :
    WizardState × List PostCall :=
  match st.step, inp with
  | .selectService, .service s =>
      if s ∈ env.services then
        ({ st with step := .selectSlot,
                   draft := { st.draft with service := some s } }, [])
      else (st, [])
  | .selectSlot, .slot t =>
      if t ∈ env.availableSlots then
        ({ st with step := .enterClientInfo,
                   draft := { st.draft with slot := some t } }, [])
      else (st, [])
  | .enterClientInfo, .client c =>
      match validateClientInfo c with
      | [] =>
        let draft' : BookingDraft :=
          { st.draft with clientName := some c.name,
                          clientContact := some c.phone, notes := c.notes }
        match env.bookingResult with
        | .success b =>
            ({ step := .confirmation, draft := draft', fieldErrors := [],
               submitError := none, booking := some b }, [⟨draft'⟩])
        | .failure .slotConflict =>
            ({ st with step := .selectSlot, draft := draft',
                       fieldErrors := [],
                       submitError := some .slotConflict }, [⟨draft'⟩])
        | .failure e =>
            ({ st with draft := draft', fieldErrors := [],
                       submitError := some e }, [⟨draft'⟩])
      | errs => ({ st with fieldErrors := errs }, [])
  | _, _ => (st, [])

/-- Modelled from the spec: the `onBack` transition (spec §4.1):
from `SelectSlot` it discards the stored slot and returns to
`SelectService` without discarding the chosen service; from
`EnterClientInfo` it returns to `SelectSlot` discarding nothing else;
`SelectService` has nothing to go back to and `Confirmation` is terminal
(only a full reset is offered there). -/
def onBack (st : WizardState) : WizardState :=
  match st.step with
  | .selectService => st
  | .selectSlot =>
      { st with step := .selectService,
                draft := { st.draft with slot := none } }
  | .enterClientInfo => { st with step := .selectSlot }
  | .confirmation => st

/-- Modelled from the spec: the full-wizard reset offered at
`Confirmation` (spec §4.1): start a new BookingDraft. -/
def resetWizard : WizardState := initialState

/-- Modelled from the spec: one complete pass through the wizard (spec §8):
apply the three `onAdvance` transitions in order from the initial state,
collecting every `POST /bookings` call issued along the way. -/
def runBookingFlow (env : Env) (s : Service) (t : TimeSlot) (c : ClientInfo) :
    WizardState × List PostCall :=
  let r1 := onAdvance env initialState (.service s)
  let r2 := onAdvance env r1.1 (.slot t)
  let r3 := onAdvance env r2.1 (.client c)
  (r3.1, r1.2 ++ r2.2 ++ r3.2)

/-- Example data from spec §8: professional "joana-silva", service "Corte". -/
def exService : Service := ⟨1, "Corte", 30, 50⟩

/-- Example slot "09:30" on 2024-06-10 from spec §8. -/
def exSlot : TimeSlot := ⟨"2024-06-10", "09:30"⟩

/-- Example client "Ana" with phone "+5511999999999" from spec §8. -/
def exClient : ClientInfo := ⟨"Ana", "+5511999999999", none⟩

/-- Example successful booking with status "pending" from spec §8. -/
def exBooking : Booking := ⟨"pending"⟩

/-- Example environment: one service, two slots, successful creation. -/
def exEnv : Env :=
  ⟨[exService], [⟨"2024-06-10", "09:00"⟩, exSlot], .success exBooking⟩

/-- C1: for every valid triple of a service from the professional's list, a
slot from the availability query, and client info passing validation, with
the remote call succeeding, executing the wizard's `onAdvance` transitions
in order issues exactly one `POST /bookings` call whose draft contains
that service, slot and client info, and the controller ends in
`Confirmation`. -/
theorem wizard_happy_path_single_post (env : Env) (s : Service)
    (t : TimeSlot) (c : ClientInfo) (b : Booking)
    (hs : s ∈ env.services) (ht : t ∈ env.availableSlots)
    (hc : validateClientInfo c = []) (hb : env.bookingResult = .success b) :
    (runBookingFlow env s t c).1.step = .confirmation ∧
    (runBookingFlow env s t c).2 =
      [⟨{ service := some s, slot := some t, clientName := some c.name,
          clientContact := some c.phone, notes := c.notes }⟩] := by
  simp [runBookingFlow, onAdvance, initialState, emptyDraft, hs, ht, hc, hb]

/-- Witness for C1 at the concrete spec §8 example. -/
theorem wizard_happy_path_single_post_check :
    (runBookingFlow exEnv exService exSlot exClient).1.step =
      .confirmation ∧
    (runBookingFlow exEnv exService exSlot exClient).2 =
      [⟨{ service := some exService, slot := some exSlot,
          clientName := some exClient.name,
          clientContact := some exClient.phone,
          notes := exClient.notes }⟩] :=
  wizard_happy_path_single_post exEnv exService exSlot exClient exBooking
    (by decide) (by decide) (by decide) (by decide)

/-- A wizard state sitting at `SelectSlot` with a chosen service and a
stale stored slot (as after navigating back from `EnterClientInfo`). -/
def exSlotState : WizardState :=
  { step := .selectSlot,
    draft := { service := some exService, slot := some exSlot,
               clientName := none, clientContact := none, notes := none },
    fieldErrors := [], submitError := none, booking := none }

/-- A wizard state sitting at `EnterClientInfo` with service and slot
already chosen. -/
def exInfoState : WizardState :=
  { step := .enterClientInfo,
    draft := { service := some exService, slot := some exSlot,
               clientName := none, clientContact := none, notes := none },
    fieldErrors := [], submitError := none, booking := none }

/-- C4: from any `SelectSlot` state with a chosen service, `onBack()`
returns to `SelectService`, clears the stored slot, and leaves the
service and every other draft field unchanged. -/
theorem back_from_selectSlot_clears_only_slot (st : WizardState)
    (h : st.step = .selectSlot) (_hs : st.draft.service.isSome = true) :
    (onBack st).step = .selectService ∧
    (onBack st).draft.slot = none ∧
    (onBack st).draft.service = st.draft.service ∧
    (onBack st).draft.clientName = st.draft.clientName ∧
    (onBack st).draft.clientContact = st.draft.clientContact ∧
    (onBack st).draft.notes = st.draft.notes := by
  simp [onBack, h]

/-- Witness for C4 at a concrete `SelectSlot` state. -/
theorem back_from_selectSlot_clears_only_slot_check :
    (onBack exSlotState).step = .selectService ∧
    (onBack exSlotState).draft.slot = none ∧
    (onBack exSlotState).draft.service = exSlotState.draft.service ∧
    (onBack exSlotState).draft.clientName = exSlotState.draft.clientName ∧
    (onBack exSlotState).draft.clientContact =
      exSlotState.draft.clientContact ∧
    (onBack exSlotState).draft.notes = exSlotState.draft.notes :=
  back_from_selectSlot_clears_only_slot exSlotState (by decide) (by decide)

/-- C5: from any `EnterClientInfo` state, `onBack()` returns to
`SelectSlot` and changes nothing beyond the step enum: the whole draft
(service and slot included), the field errors, the submission error and
the booking are all unchanged. -/
theorem back_from_enterClientInfo_preserves_draft (st : WizardState)
    (h : st.step = .enterClientInfo) :
    (onBack st).step = .selectSlot ∧
    (onBack st).draft = st.draft ∧
    (onBack st).fieldErrors = st.fieldErrors ∧
    (onBack st).submitError = st.submitError ∧
    (onBack st).booking = st.booking := by
  simp [onBack, h]

/-- Witness for C5 at a concrete `EnterClientInfo` state. -/
theorem back_from_enterClientInfo_preserves_draft_check :
    (onBack exInfoState).step = .selectSlot ∧
    (onBack exInfoState).draft = exInfoState.draft ∧
    (onBack exInfoState).fieldErrors = exInfoState.fieldErrors ∧
    (onBack exInfoState).submitError = exInfoState.submitError ∧
    (onBack exInfoState).booking = exInfoState.booking :=
  back_from_enterClientInfo_preserves_draft exInfoState (by decide)

/-- Validation succeeds exactly when the name is non-empty and the phone
is a syntactically valid WhatsApp-style number. -/
theorem validateClientInfo_nil_iff (c : ClientInfo) :
    validateClientInfo c = [] ↔
      (c.name ≠ "" ∧ validWhatsAppPhone c.phone = true) := by
  unfold validateClientInfo
  split <;> split <;> simp_all

/-- C7: a `SlotConflict` response to the booking-creation call leaves the
draft's selected service and the just-submitted client-info fields
intact and transitions the controller to `SelectSlot` (not back to the
form, distinguishing the conflict from a validation error). -/
theorem slot_conflict_returns_to_selectSlot (env : Env) (st : WizardState)
    (c : ClientInfo) (h : st.step = .enterClientInfo)
    (hc : validateClientInfo c = [])
    (hb : env.bookingResult = .failure .slotConflict) :
    (onAdvance env st (.client c)).1.step = .selectSlot ∧
    (onAdvance env st (.client c)).1.draft.service = st.draft.service ∧
    (onAdvance env st (.client c)).1.draft.clientName = some c.name ∧
    (onAdvance env st (.client c)).1.draft.clientContact = some c.phone ∧
    (onAdvance env st (.client c)).1.draft.notes = c.notes ∧
    (onAdvance env st (.client c)).1.step ≠ .enterClientInfo := by
  simp [onAdvance, h, hc, hb]

/-- An environment whose booking-creation call answers `SlotConflict`. -/
def exConflictEnv : Env :=
  ⟨[exService], [exSlot], .failure .slotConflict⟩

/-- Witness for C7 at a concrete conflict scenario. -/
theorem slot_conflict_returns_to_selectSlot_check :
    (onAdvance exConflictEnv exInfoState (.client exClient)).1.step =
      .selectSlot ∧
    (onAdvance exConflictEnv exInfoState (.client exClient)).1.draft.service
      = exInfoState.draft.service ∧
    (onAdvance exConflictEnv exInfoState
      (.client exClient)).1.draft.clientName = some exClient.name ∧
    (onAdvance exConflictEnv exInfoState
      (.client exClient)).1.draft.clientContact = some exClient.phone ∧
    (onAdvance exConflictEnv exInfoState (.client exClient)).1.draft.notes
      = exClient.notes ∧
    (onAdvance exConflictEnv exInfoState (.client exClient)).1.step ≠
      .enterClientInfo :=
  slot_conflict_returns_to_selectSlot exConflictEnv exInfoState exClient
    (by decide) (by decide) (by decide)

/-- C8: `EnterClientInfo.onAdvance(clientInfo)` succeeds exactly when the
name is non-empty and the phone is a syntactically valid WhatsApp-style
number; on a violating input the transition is rejected with the
field-level errors surfaced, the step and draft unchanged, and no
booking-creation call issued; on a satisfying input the single atomic
create-booking call carries the full draft. -/
theorem client_info_validation_gates_post (env : Env) (st : WizardState)
    (c : ClientInfo) (h : st.step = .enterClientInfo) :
    (validateClientInfo c = [] ↔
      (c.name ≠ "" ∧ validWhatsAppPhone c.phone = true)) ∧
    (validateClientInfo c ≠ [] →
      (onAdvance env st (.client c)).2 = [] ∧
      (onAdvance env st (.client c)).1.step = .enterClientInfo ∧
      (onAdvance env st (.client c)).1.draft = st.draft ∧
      (onAdvance env st (.client c)).1.fieldErrors =
        validateClientInfo c) ∧
    (validateClientInfo c = [] →
      (onAdvance env st (.client c)).2 =
        [⟨{ st.draft with clientName := some c.name,
                          clientContact := some c.phone,
                          notes := c.notes }⟩]) := by
  refine ⟨validateClientInfo_nil_iff c, ?_, ?_⟩
  · intro hne
    rcases hval : validateClientInfo c with _ | ⟨e, errs⟩
    · exact absurd hval hne
    · simp [onAdvance, h, hval]
  · intro hval
    rcases hres : env.bookingResult with b | e
    · simp [onAdvance, h, hval, hres]
    · cases e <;> simp [onAdvance, h, hval, hres]

/-- A client-info input with an empty name and an invalid phone. -/
def badClient : ClientInfo := ⟨"", "12345", none⟩

/-- Witness for C8: a rejected concrete input issues no call and keeps
the step; the valid concrete input issues the single full-draft call. -/
theorem client_info_validation_gates_post_check :
    ((validateClientInfo badClient = [] ↔
       (badClient.name ≠ "" ∧ validWhatsAppPhone badClient.phone = true)) ∧
     (validateClientInfo badClient ≠ [] →
       (onAdvance exEnv exInfoState (.client badClient)).2 = [] ∧
       (onAdvance exEnv exInfoState (.client badClient)).1.step =
         .enterClientInfo ∧
       (onAdvance exEnv exInfoState (.client badClient)).1.draft =
         exInfoState.draft ∧
       (onAdvance exEnv exInfoState (.client badClient)).1.fieldErrors =
         validateClientInfo badClient) ∧
     (validateClientInfo badClient = [] →
       (onAdvance exEnv exInfoState (.client badClient)).2 =
         [⟨{ exInfoState.draft with
             clientName := some badClient.name,
             clientContact := some badClient.phone,
             notes := badClient.notes }⟩])) :=
  client_info_validation_gates_post exEnv exInfoState badClient (by decide)

/-- C3 counterexample: on a `SlotConflict` failure of the
booking-creation call the controller does not remain in
`EnterClientInfo` (it returns to `SelectSlot`, as spec §7c and §8
require), so the claim that every failing result leaves the controller
in `EnterClientInfo` is false at this concrete input. -/
theorem booking_failure_stays_cex :
    (onAdvance exConflictEnv exInfoState (.client exClient)).1.step ≠
      .enterClientInfo := by decide

/-- C3 (amended): for every failing result of the booking-creation call
from `EnterClientInfo`, the draft as submitted is fully retained, the
controller does not transition to `Confirmation`, and the attempt issues
exactly one `POST /bookings` call (none follows without an explicit
re-trigger); for a network error or a server-side validation rejection
the controller remains in `EnterClientInfo`, while a `SlotConflict`
returns it to `SelectSlot`. -/
theorem booking_failure_retains_draft (env : Env) (st : WizardState)
    (c : ClientInfo) (e : BookingFailure) (h : st.step = .enterClientInfo)
    (hc : validateClientInfo c = [])
    (hb : env.bookingResult = .failure e) :
    (onAdvance env st (.client c)).1.draft =
      { st.draft with clientName := some c.name,
                      clientContact := some c.phone,
                      notes := c.notes } ∧
    (onAdvance env st (.client c)).1.step ≠ .confirmation ∧
    (onAdvance env st (.client c)).2 =
      [⟨{ st.draft with clientName := some c.name,
                        clientContact := some c.phone,
                        notes := c.notes }⟩] ∧
    (e ≠ .slotConflict →
      (onAdvance env st (.client c)).1.step = .enterClientInfo) := by
  cases e <;> simp [onAdvance, h, hc, hb]

/-- An environment whose booking-creation call fails with a transport
error. -/
def exFailEnv : Env := ⟨[exService], [exSlot], .failure .transportError⟩

/-- Witness for the amended C3 at a concrete transport failure. -/
theorem booking_failure_retains_draft_check :
    (onAdvance exFailEnv exInfoState (.client exClient)).1.draft =
      { exInfoState.draft with
        clientName := some exClient.name,
        clientContact := some exClient.phone,
        notes := exClient.notes } ∧
    (onAdvance exFailEnv exInfoState (.client exClient)).1.step ≠
      .confirmation ∧
    (onAdvance exFailEnv exInfoState (.client exClient)).2 =
      [⟨{ exInfoState.draft with
          clientName := some exClient.name,
          clientContact := some exClient.phone,
          notes := exClient.notes }⟩] ∧
    (BookingFailure.transportError ≠ .slotConflict →
      (onAdvance exFailEnv exInfoState (.client exClient)).1.step =
        .enterClientInfo) :=
  booking_failure_retains_draft exFailEnv exInfoState exClient
    .transportError (by decide) (by decide) (by decide)

/-- Modelled from the spec: a BookingDraft is complete when it has a
selected service, a selected time slot, a non-empty client name and a
valid client contact (spec §3). -/
def draftComplete (d : BookingDraft) : Bool :=
  d.service.isSome && d.slot.isSome &&
    (match d.clientName with
     | some n => n != ""
     | none => false) &&
    (match d.clientContact with
     | some p => validWhatsAppPhone p
     | none => false)

/-- The inductive invariant of the wizard: each step has its required
draft fields present and valid (spec §3). -/
def stateInv (st : WizardState) : Bool :=
  match st.step with
  | .selectService => true
  | .selectSlot => st.draft.service.isSome
  | .enterClientInfo => st.draft.service.isSome && st.draft.slot.isSome
  | .confirmation => draftComplete st.draft

/-- One controller transition: any `onAdvance` against any environment
and input, any `onBack`, or the full-wizard reset offered at
`Confirmation` (spec §4.1). -/
inductive WizardTrans : WizardState → WizardState → Prop where
  | advance (env : Env) (inp : Input) (st : WizardState) :
      WizardTrans st (onAdvance env st inp).1
  | back (st : WizardState) : WizardTrans st (onBack st)
  | reset (st : WizardState) : WizardTrans st resetWizard

/-- States reachable from the initial `SelectService` state by any
sequence of transitions. -/
inductive Reachable : WizardState → Prop where
  | init : Reachable initialState
  | next {s s' : WizardState} : Reachable s → WizardTrans s s' →
      Reachable s'

/-- The `onAdvance` transition preserves the step invariant. -/
theorem stateInv_onAdvance (env : Env) (st : WizardState) (inp : Input)
    (h : stateInv st = true) : stateInv (onAdvance env st inp).1 = true := by
  rcases hstep : st.step <;> rcases inp with s | t | c <;>
      simp only [onAdvance, hstep]
  case selectService.service =>
    split
    · simp [stateInv]
    · simp [stateInv, hstep]
  case selectService.slot => simp [stateInv, hstep]
  case selectService.client => simp [stateInv, hstep]
  case selectSlot.service => exact h
  case selectSlot.slot =>
    replace h : st.draft.service.isSome = true := by
      unfold stateInv at h; rwa [hstep] at h
    split
    · simp [stateInv, h]
    · exact (by simpa [stateInv, hstep] using h)
  case selectSlot.client => exact h
  case enterClientInfo.service => exact h
  case enterClientInfo.slot => exact h
  case enterClientInfo.client =>
    replace h : st.draft.service.isSome = true ∧
        st.draft.slot.isSome = true := by
      unfold stateInv at h; rw [hstep] at h
      simpa [Bool.and_eq_true] using h
    rcases hval : validateClientInfo c with _ | ⟨e, errs⟩
    · have hnv := (validateClientInfo_nil_iff c).mp hval
      rcases hres : env.bookingResult with b | e
      · simp [hres, stateInv, draftComplete, h.1, h.2, hnv.2,
          bne_iff_ne, hnv.1]
      · rcases e <;> simp [hres, stateInv, hstep, h.1, h.2]
    · simp [stateInv, hstep, h.1, h.2]
  case confirmation.service => exact h
  case confirmation.slot => exact h
  case confirmation.client => exact h

/-- The `onBack` transition preserves the step invariant. -/
theorem stateInv_onBack (st : WizardState) (h : stateInv st = true) :
    stateInv (onBack st) = true := by
  rcases hstep : st.step <;> simp only [onBack, hstep]
  case selectService => exact h
  case selectSlot => simp [stateInv]
  case enterClientInfo =>
    replace h : st.draft.service.isSome = true ∧
        st.draft.slot.isSome = true := by
      unfold stateInv at h; rw [hstep] at h
      simpa [Bool.and_eq_true] using h
    simp [stateInv, h.1]
  case confirmation => exact h

/-- Every reachable wizard state satisfies the step invariant. -/
theorem reachable_stateInv {st : WizardState} (h : Reachable st) :
    stateInv st = true := by
  induction h with
  | init => rfl
  | next _ tr ih =>
    cases tr with
    | advance env inp _ => exact stateInv_onAdvance env _ inp ih
    | back _ => exact stateInv_onBack _ ih
    | reset _ => rfl

/-- C2: in every state reachable from the initial state by `onAdvance`,
`onBack` and reset transitions, being at `Confirmation` implies the
BookingDraft is complete: selected service, selected slot, non-empty
client name and valid client contact. -/
theorem confirmation_requires_complete_draft (st : WizardState)
    (h : Reachable st) (hc : st.step = .confirmation) :
    draftComplete st.draft = true := by
  have hinv := reachable_stateInv h
  unfold stateInv at hinv
  rw [hc] at hinv
  exact hinv

/-- First intermediate state of the concrete happy path. -/
abbrev wiz1 : WizardState :=
  (onAdvance exEnv initialState (.service exService)).1

/-- Second intermediate state of the concrete happy path. -/
abbrev wiz2 : WizardState := (onAdvance exEnv wiz1 (.slot exSlot)).1

/-- Final state of the concrete happy path. -/
abbrev wiz3 : WizardState := (onAdvance exEnv wiz2 (.client exClient)).1

/-- Witness for C2: the concrete happy-path confirmation state has a
complete draft. -/
theorem confirmation_requires_complete_draft_check :
    draftComplete wiz3.draft = true :=
  confirmation_requires_complete_draft wiz3
    (Reachable.next
      (Reachable.next
        (Reachable.next Reachable.init
          (WizardTrans.advance exEnv (.service exService) initialState))
        (WizardTrans.advance exEnv (.slot exSlot) wiz1))
      (WizardTrans.advance exEnv (.client exClient) wiz2))
    (by decide)

/-- Modelled from the spec: bookkeeping for the slot-listing query,
implemented via request generation counters (spec §5, §9): the current
generation, the date most recently queried, and the slot list currently
displayed. -/
structure SlotQueryState where
  generation : Nat
  queriedDate : String
  displayed : Option (List TimeSlot)
  deriving DecidableEq, Repr

/-- Modelled from the spec: issuing the slot-listing query for a date
bumps the generation counter and returns the token identifying this
request (spec §5, §9). -/
def issueSlotQuery (qs : SlotQueryState) (d : String) :
    SlotQueryState × Nat :=
  ({ qs with generation := qs.generation + 1, queriedDate := d },
   qs.generation + 1)

/-- Modelled from the spec: a resolving response updates the displayed
slots only when its token matches the current generation; a stale
response is ignored (spec §5: last-issued-wins). -/
def onSlotResponse (qs : SlotQueryState) (token : Nat)
    (slots : List TimeSlot) : SlotQueryState :=
  if token = qs.generation then { qs with displayed := some slots } else qs

/-- C6: issue a slot query for date `d1`, then one for date `d2` before
the first resolves; if `d2`'s response resolves first and `d1`'s stale
response resolves afterwards, the displayed slots remain those of `d2`:
the stale response never overwrites state. -/
theorem slot_query_last_issued_wins (qs0 : SlotQueryState)
    (d1 d2 : String) (slots1 slots2 : List TimeSlot) :
    (onSlotResponse
      (onSlotResponse (issueSlotQuery (issueSlotQuery qs0 d1).1 d2).1
        (issueSlotQuery (issueSlotQuery qs0 d1).1 d2).2 slots2)
      (issueSlotQuery qs0 d1).2 slots1).displayed = some slots2 := by
  simp [issueSlotQuery, onSlotResponse]

/-- Modelled from the spec: the outcome of the availability query as
observed by the calendar step: an ordered slot list (possibly empty) or
a transport failure (spec §6, §7d). -/
inductive AvailabilityResult where
  | ok (slots : List TimeSlot)
  | transportFailure (msg : String)
  deriving DecidableEq, Repr

/-- Modelled from the spec: what the calendar step renders for an
availability response: an explicit empty state for a day with no slots,
the slot list otherwise, and an error state only for transport failures
(spec §6, §8). -/
inductive AvailabilityView where
  | errorView (msg : String)
  | emptyView
  | slotsView (slots : List TimeSlot)
  deriving DecidableEq, Repr

/-- Modelled from the spec: the rendering function of the availability
step (spec §6: an empty sequence is valid and must render distinctly
from a transport error). -/
def renderAvailability : AvailabilityResult → AvailabilityView
  | .ok [] => .emptyView
  | .ok (t :: ts) => .slotsView (t :: ts)
  | .transportFailure m => .errorView m

/-- C9: an empty availability response renders the explicit empty state,
which differs from the error state rendered for every transport
failure; the empty sequence is a valid, non-error result. -/
theorem empty_slots_renders_empty_state :
    renderAvailability (.ok []) = .emptyView ∧
    (∀ m : String,
      renderAvailability (.transportFailure m) = .errorView m) ∧
    (∀ m : String,
      renderAvailability (.ok []) ≠ renderAvailability
        (.transportFailure m)) := by
  refine ⟨rfl, fun m => rfl, fun m hcontra => ?_⟩
  simp [renderAvailability] at hcontra

/-- A landing section, one per component imported and rendered by
`src/routes/index.tsx`. -/
inductive LandingSection where
  | hero
  | problemSection
  | howItWorks
  | valueProposition
  | socialProof
  | testimonials
  | finalCTA
  | footer
  deriving DecidableEq, Repr

/-- The page rendered by the landing route: the wrapping div's class and
the ordered child sections (`src/routes/index.tsx`, lines 16-29). -/
structure RenderedPage where
  className : String
  sections : List LandingSection
  deriving DecidableEq, Repr

/-- Embedded from `src/routes/index.tsx`: `LandingPage`, a component of no inputs
returning the fixed sequence of eight landing sections inside a
`min-h-screen` div; it reads and mutates no state. -/
def LandingPage : Unit → RenderedPage := fun _ =>
  { className := "min-h-screen",
    sections := [.hero, .problemSection, .howItWorks, .valueProposition,
                 .socialProof, .testimonials, .finalCTA, .footer] }

/-- A file route as registered with `createFileRoute`: a path and a
component. -/
structure FileRoute where
  path : String
  component : Unit → RenderedPage

/-- Embedded from `src/routes/index.tsx`: `Route`, registered via
`createFileRoute('/')({ component: LandingPage })`. -/
def Route : FileRoute := { path := "/", component := LandingPage }

/-- C10: the root route `/` is registered with `LandingPage` as its
component, and `LandingPage` deterministically renders the same fixed
sequence of exactly eight sections, in order Hero, ProblemSection,
HowItWorks, ValueProposition, SocialProof, Testimonials, FinalCTA,
Footer, on every render. -/
theorem landing_route_sections :
    Route.path = "/" ∧
    Route.component = LandingPage ∧
    (∀ u v : Unit, LandingPage u = LandingPage v) ∧
    (LandingPage ()).sections =
      [.hero, .problemSection, .howItWorks, .valueProposition,
       .socialProof, .testimonials, .finalCTA, .footer] ∧
    (LandingPage ()).sections.length = 8 :=
  ⟨rfl, rfl, fun _ _ => rfl, rfl, rfl⟩

end MarcaZap
